import Mathlib

/-!
# xogene drug search client: a shallow embedding of `src/App.js`

The program is a React client with two screens.  The embedding covers

* the JavaScript values a parsed response body can hold (`JSVal`) together with
  the few language primitives the program applies to them (truthiness, property
  access, indexing, `x > 0`, template-literal string conversion, `Array.map`,
  `Array.flatMap`);
* the view state of each screen (`SearchState`, `DetailsState`) and the event
  handlers as state transformers that also return the list of requests issued;
* the element trees returned by the render functions (`RNode`).

React semantics used: a state variable read inside a handler is the value
captured by the render that created the handler; a `setX(v)` call replaces the
field `X` of the state the next render will see.  `console.log` and
`console.error` calls are not observable in the view state and are omitted.
-/

namespace Xogene

/-! ## JavaScript values -/

/-- Values that `JSON.parse` can produce, plus `undefined`.  Numbers are the
integer-valued ones; the program never computes with a number, it only tests
one for truthiness, compares one with `0`, or prints one. -/
inductive JSVal where
  | undefined : JSVal
  | null : JSVal
  | bool (b : Bool) : JSVal
  | num (n : Int) : JSVal
  | str (s : String) : JSVal
  | arr (items : List JSVal) : JSVal
  | obj (fields : List (String × JSVal)) : JSVal

/-- A thrown JavaScript exception or a rejected promise. -/
inductive JSError where
  | typeError : JSError
  | requestFailed : JSError

/-- What the program uses of its surroundings: the HTTP client and the one
numeric coercion of the language that depends on number parsing. -/
structure Runtime where
  /-- Outcome of `await axios.get(url)`: `.ok data` is `response.data` of a
  resolved request, `.error _` a rejected one. -/
  httpGet : String → Except JSError JSVal
  /-- Whether `StringToNumber(s) > 0` holds (ECMAScript string-to-number coercion). -/
  stringIsPositive : String → Bool

namespace JSVal

/-- JavaScript `ToBoolean`. -/
def truthy : JSVal → Bool
  | undefined => false
  | null => false
  | bool b => b
  | num n => n != 0
  | str s => s != ""
  | arr _ => true
  | obj _ => true

/-- Number of UTF-16 code units of a string, its JavaScript `length`. -/
def utf16Len (s : String) : Nat :=
  (s.data.map (fun c => if c.val.toNat < 65536 then 1 else 2)).sum

/-- Property read `v.k` for the property names the program uses
(`suggestionGroup`, `suggestionList`, `suggestion`, `nlmRxNorm`, `drugGroup`,
`conceptGroup`, `conceptProperties`, `ndcGroup`, `ndcList`, `ndc`, `rxcui`,
`name`, `synonym`, `params`, `length`): reading from `undefined` or `null`
throws, an own field of an object is returned, arrays and strings have
`length`, everything else is `undefined`. -/
def getProp (v : JSVal) (k : String) : Except JSError JSVal :=
  match v with
  | undefined => .error .typeError
  | null => .error .typeError
  | obj fields => .ok ((fields.lookup k).getD undefined)
  | arr items => if k = "length" then .ok (num items.length) else .ok undefined
  | str s => if k = "length" then .ok (num (utf16Len s)) else .ok undefined
  | _ => .ok undefined

/-- Index read `v[i]`.  On a string the result is the one-character string at
that position (positions are counted in characters here). -/
def getIndex (v : JSVal) (i : Nat) : Except JSError JSVal :=
  match v with
  | undefined => .error .typeError
  | null => .error .typeError
  | obj fields => .ok ((fields.lookup (toString i)).getD undefined)
  | arr items => .ok (items.getD i undefined)
  | str s => .ok (match s.data.get? i with
      | some c => str (String.singleton c)
      | none => undefined)
  | _ => .ok undefined

mutual
/-- JavaScript `ToString` of an array element inside `Array.prototype.join`. -/
def joinItem : JSVal → String
  | undefined => ""
  | null => ""
  | bool b => if b then "true" else "false"
  | num n => toString n
  | str s => s
  | arr items => joinItems items
  | obj _ => "[object Object]"
/-- The text of `items.join(",")`. -/
def joinItems : List JSVal → String
  | [] => ""
  | [x] => joinItem x
  | x :: y :: rest => joinItem x ++ "," ++ joinItems (y :: rest)
end

/-- JavaScript `ToString`, as applied by a template literal. -/
def toStr : JSVal → String
  | undefined => "undefined"
  | null => "null"
  | bool b => if b then "true" else "false"
  | num n => toString n
  | str s => s
  | arr items => joinItems items
  | obj _ => "[object Object]"

/-- The comparison `v > 0`. -/
def gtZero (rt : Runtime) : JSVal → Bool
  | undefined => false
  | null => false
  | bool b => b
  | num n => decide (0 < n)
  | str s => rt.stringIsPositive s
  | arr items => rt.stringIsPositive (joinItems items)
  | obj _ => false

end JSVal

/-- The callback-free part of `xs.map(f)` and `xs.flatMap(f)`: apply a fallible
function to each element with its index, left to right, stopping at the first
exception. -/
def mapIdxFrom {β : Type} (f : JSVal → Nat → Except JSError β) :
    Nat → List JSVal → Except JSError (List β)
  | _, [] => .ok []
  | i, x :: rest =>
    match f x i with
    | .error e => .error e
    | .ok y =>
      match mapIdxFrom f (i + 1) rest with
      | .error e => .error e
      | .ok ys => .ok (y :: ys)

/-- Method call `v.map(f)`: only an array has a callable `map`; on any other
value the call throws a `TypeError`. -/
def jsMap {β : Type} (v : JSVal) (f : JSVal → Nat → Except JSError β) :
    Except JSError (List β) :=
  match v with
  | .arr items => mapIdxFrom f 0 items
  | _ => .error .typeError

/-- One level of flattening, as `flatMap` does with the value its callback
returned: an array contributes its elements, any other value itself. -/
def spread : JSVal → List JSVal
  | .arr items => items
  | v => [v]

/-- Method call `v.flatMap(f)`: only an array has a callable `flatMap`. -/
def jsFlatMap (v : JSVal) (f : JSVal → Nat → Except JSError JSVal) :
    Except JSError JSVal :=
  match jsMap v f with
  | .error e => .error e
  | .ok ys => .ok (.arr (ys.map spread).flatten)

/-- The operand selection of `a && b` once `a` has been evaluated: `b` is only
evaluated when `a` is truthy. -/
def jsAnd (a : JSVal) (b : Except JSError JSVal) : Except JSError JSVal :=
  if a.truthy then b else .ok a

/-! ## React elements -/

/-- Event handlers that the render functions attach to elements, named after
the functions of the source; a handler built by an arrow function carries the
argument it will pass. -/
inductive Handler where
  | handleSearchChange : Handler
  | handleKeyPress : Handler
  | handleSearch : Handler
  | handleSuggestionClick (suggestedTerm : JSVal) : Handler

/-- Value of a JSX attribute. -/
inductive Attr where
  | val (v : JSVal) : Attr
  | on (h : Handler) : Attr

/-- A React node as written in JSX: literal text, an embedded expression value,
or an element with its tag, `key`, other attributes and children. -/
inductive RNode where
  | text (s : String) : RNode
  | expr (v : JSVal) : RNode
  | elem (tag : String) (key : Option JSVal) (attrs : List (String × Attr))
      (children : List RNode) : RNode

/-! ## Search screen -/

/-- The constant `API_BASE_URL`. -/
def API_BASE_URL : String := "https://rxnav.nlm.nih.gov/REST"

/-- The four `useState` cells of `DrugSearchPage`. -/
structure SearchState where
  searchTerm : JSVal
  searchResults : JSVal
  suggestedTerms : JSVal
  error : JSVal

/-- The initial values given to `useState` in `DrugSearchPage`. -/
def SearchState.initial : SearchState :=
  ⟨.str "", .arr [], .arr [], .str ""⟩

/-- The function `handleSearchChange`, applied to `event.target.value`. -/
def handleSearchChange (value : String) (st : SearchState) : SearchState :=
  { st with searchTerm := .str value }

/-- The URL of the name lookup built by the template literal in `handleSearch`. -/
def searchUrl (searchTerm : JSVal) : String :=
  API_BASE_URL ++ "/drugs.json?name=" ++ searchTerm.toStr

/-- The callback `(cg) => cg.conceptProperties` of `handleSearch`. -/
def conceptPropertiesOf (cg : JSVal) (_index : Nat) : Except JSError JSVal :=
  cg.getProp "conceptProperties"

/-- The body of the `try` block of `handleSearch` after the response arrived:
the single state update it performs, or the exception it throws.  A path read
twice by the source is read once here. -/
def searchUpdate (rt : Runtime) (data : JSVal) :
    Except JSError (SearchState → SearchState) := do
  let suggestionGroup ← data.getProp "suggestionGroup"
  let hasSuggestions ← jsAnd suggestionGroup (suggestionGroup.getProp "suggestionList")
  if hasSuggestions.truthy then
    let suggestion ← hasSuggestions.getProp "suggestion"
    pure (fun st => { st with suggestedTerms := suggestion })
  else
    let nlmRxNorm ← data.getProp "nlmRxNorm"
    let drugGroup ← jsAnd nlmRxNorm (nlmRxNorm.getProp "drugGroup")
    if drugGroup.truthy then
      let conceptGroup ← drugGroup.getProp "conceptGroup"
      let nonEmpty ← jsAnd conceptGroup
        ((conceptGroup.getProp "length").map (fun len => .bool (len.gtZero rt)))
      if nonEmpty.truthy then
        let allConceptProperties ← jsFlatMap conceptGroup conceptPropertiesOf
        pure (fun st => { st with searchResults := allConceptProperties })
      else
        pure (fun st => { st with error := .str "No results found" })
    else
      pure (fun st => { st with error := .str "No results found" })

/-- The function `handleSearch`.  `closure` is the state of the render that
created the handler (the source reads `searchTerm` from it), `st` is the state
the `set` calls act on.  Returns the new state and the URLs requested. -/
def handleSearch (rt : Runtime) (closure st : SearchState) : SearchState × List String :=
  let url := searchUrl closure.searchTerm
  match (rt.httpGet url).bind (searchUpdate rt) with
  | .ok update => (update st, [url])
  | .error _ => ({ st with error := .str "Failed to fetch search results" }, [url])

/-- The function `handleKeyPress`, applied to `event.key`. -/
def handleKeyPress (rt : Runtime) (key : String) (closure st : SearchState) :
    SearchState × List String :=
  if key = "Enter" then handleSearch rt closure st else (st, [])

/-- The function `handleSuggestionClick`: `setSearchTerm(suggestedTerm)` and
then `handleSearch()` of the same render. -/
def handleSuggestionClick (rt : Runtime) (suggestedTerm : JSVal) (closure st : SearchState) :
    SearchState × List String :=
  handleSearch rt closure { st with searchTerm := suggestedTerm }

/-- The list item rendered for one suggestion. -/
def suggestionItem (term : JSVal) (index : Nat) : RNode :=
  .elem "li" (some (.num index)) [("onClick", .on (.handleSuggestionClick term))] [.expr term]

/-- The list item rendered for one search result, from the values of
`result.rxcui` and `result.name`. -/
def resultItem (rxcui name : JSVal) : RNode :=
  .elem "li" (some rxcui) []
    [.elem "Link" none [("to", .val (.str ("/drugs/" ++ name.toStr)))] [.expr name]]

/-- The callback of `searchResults.map` in `renderSearchResults`. -/
def renderResult (result : JSVal) (_index : Nat) : Except JSError RNode := do
  let rxcui ← result.getProp "rxcui"
  let name ← result.getProp "name"
  pure (resultItem rxcui name)

/-- The function `renderSearchResults`, on the state of the current render. -/
def renderSearchResults (rt : Runtime) (st : SearchState) : Except JSError RNode :=
  if st.error.truthy then
    .ok (.elem "div" none [] [.expr st.error])
  else do
    let len ← st.suggestedTerms.getProp "length"
    if len.gtZero rt then
      let items ← jsMap st.suggestedTerms (fun term index => .ok (suggestionItem term index))
      pure (.elem "div" none []
        [.elem "p" none [] [.text "Did you mean:"], .elem "ul" none [] items])
    else
      let items ← jsMap st.searchResults renderResult
      pure (.elem "ul" none [] items)

/-! ## Details screen -/

/-- One step of a member-access chain: `.k` or `[i]`. -/
inductive Step where
  | prop (k : String) : Step
  | idx (i : Nat) : Step

/-- Evaluation of one access step on a value. -/
def evalStep (v : JSVal) : Step → Except JSError JSVal
  | .prop k => v.getProp k
  | .idx i => v.getIndex i

/-- Evaluation of a member-access chain, left to right; the first step that
throws ends the evaluation. -/
def evalPath (v : JSVal) : List Step → Except JSError JSVal
  | [] => .ok v
  | s :: rest =>
    match evalStep v s with
    | .error e => .error e
    | .ok w => evalPath w rest

/-- The chain `.nlmRxNorm.drugGroup.conceptGroup[0].conceptProperties[0]` that
`fetchDrugDetails` applies to `detailsResponse.data`. -/
def detailsPath : List Step :=
  [.prop "nlmRxNorm", .prop "drugGroup", .prop "conceptGroup", .idx 0,
   .prop "conceptProperties", .idx 0]

/-- The three `useState` cells of `DrugDetailsPage`. -/
structure DetailsState where
  drugDetails : JSVal
  ndcList : JSVal
  error : JSVal

/-- The initial values given to `useState` in `DrugDetailsPage`. -/
def DetailsState.initial : DetailsState :=
  ⟨.null, .arr [], .str ""⟩

/-- The URL of the by-identifier concept lookup. -/
def detailsUrl (rxcui : JSVal) : String :=
  API_BASE_URL ++ "/rxcui/" ++ rxcui.toStr ++ ".json"

/-- The URL of the code lookup. -/
def ndcsUrl (rxcui : JSVal) : String :=
  API_BASE_URL ++ "/rxcui/" ++ rxcui.toStr ++ "/ndcs.json"

/-- The `if` statement of `fetchDrugDetails` on `ndcsResponse.data`: the state
update it performs, or the exception it throws. -/
def ndcsUpdate (data : JSVal) : Except JSError (DetailsState → DetailsState) := do
  let nlmRxNorm ← data.getProp "nlmRxNorm"
  let ndcGroup ← jsAnd nlmRxNorm (nlmRxNorm.getProp "ndcGroup")
  if ndcGroup.truthy then
    let ndcList ← ndcGroup.getProp "ndcList"
    pure (fun st => { st with ndcList := ndcList })
  else
    pure id

/-- The function `fetchDrugDetails` for the identifier `rxcui` of the render
that created it.  Returns the new state and the URLs requested, in order. -/
def fetchDrugDetails (rt : Runtime) (rxcui : JSVal) (st : DetailsState) :
    DetailsState × List String :=
  let failed := JSVal.str "Failed to fetch drug details"
  match (rt.httpGet (detailsUrl rxcui)).bind (fun data => evalPath data detailsPath) with
  | .error _ => ({ st with error := failed }, [detailsUrl rxcui])
  | .ok details =>
    let st1 := { st with drugDetails := details }
    match (rt.httpGet (ndcsUrl rxcui)).bind ndcsUpdate with
    | .error _ => ({ st1 with error := failed }, [detailsUrl rxcui, ndcsUrl rxcui])
    | .ok update => (update st1, [detailsUrl rxcui, ndcsUrl rxcui])

/-- The list item rendered for one entry of `ndcList`, from the value of `ndc.ndc`. -/
def ndcItem (code : JSVal) : RNode :=
  .elem "li" (some code) [] [.expr code]

/-- The callback of `ndcList.map` in `DrugDetailsPage`. -/
def renderNdc (ndc : JSVal) (_index : Nat) : Except JSError RNode := do
  let code ← ndc.getProp "ndc"
  pure (ndcItem code)

/-- The element returned by `DrugDetailsPage` once details are present, from
the values of `drugDetails.name`, `drugDetails.rxcui`, `drugDetails.synonym`
and the rendered code items. -/
def detailsView (name rxcui synonym : JSVal) (items : List RNode) : RNode :=
  .elem "div" none []
    [.elem "h1" none [] [.text "Drug Details"],
     .elem "h2" none [] [.expr name],
     .elem "p" none [] [.text "RxCUI: ", .expr rxcui],
     .elem "p" none [] [.text "Synonym: ", .expr synonym],
     .elem "h3" none [] [.text "NDCs:"],
     .elem "ul" none [] items]

/-- The render function of `DrugDetailsPage` for the props value `match` and
the current state. -/
def DrugDetailsPage (match_ : JSVal) (st : DetailsState) : Except JSError RNode := do
  let params ← match_.getProp "params"
  let _rxcui ← params.getProp "rxcui"
  if st.error.truthy then
    pure (.elem "div" none [] [.expr st.error])
  else if !st.drugDetails.truthy then
    pure (.elem "div" none [] [.text "Loading..."])
  else
    let name ← st.drugDetails.getProp "name"
    let rxcui ← st.drugDetails.getProp "rxcui"
    let synonym ← st.drugDetails.getProp "synonym"
    let items ← jsMap st.ndcList renderNdc
    pure (detailsView name rxcui synonym items)

/-- The `match` value of a route whose path parameter `rxcui` is `id`. -/
def routeMatch (id : JSVal) : JSVal :=
  .obj [("params", .obj [("rxcui", id)])]

/-! ## Views named by the specification -/

/-- Own field `k` of a record, `undefined` when absent or when `v` is not an object. -/
def JSVal.field (v : JSVal) (k : String) : JSVal :=
  match v with
  | .obj fields => (fields.lookup k).getD .undefined
  | _ => .undefined

/-- Error view: a single block holding the message. -/
def errorView (msg : JSVal) : RNode :=
  .elem "div" none [] [.expr msg]

/-- Suggestion view: the prompt followed by one clickable item per suggestion,
in order, keyed by position. -/
def suggestionView (terms : List JSVal) : RNode :=
  .elem "div" none []
    [.elem "p" none [] [.text "Did you mean:"],
     .elem "ul" none [] (terms.enum.map (fun p => suggestionItem p.2 p.1))]

/-- Result view: one linked item per result record, in order. -/
def resultView (results : List JSVal) : RNode :=
  .elem "ul" none [] (results.map (fun r => resultItem (r.field "rxcui") (r.field "name")))

/-- Placeholder shown by the details screen while no details record is set. -/
def loadingView : RNode :=
  .elem "div" none [] [.text "Loading..."]

/-- A member-access chain is absent in `v` when it evaluates to `undefined`
without throwing. -/
def absent (v : JSVal) (path : List Step) : Prop :=
  evalPath v path = .ok .undefined

/-! ## Concrete responses and states used as examples -/

/-- A name-lookup response carrying the suggestion list `["aspirin"]`. -/
def suggestionResponse : JSVal :=
  .obj [("suggestionGroup", .obj [("name", .null),
    ("suggestionList", .obj [("suggestion", .arr [.str "aspirin"])])])]

/-- A runtime whose every request resolves with `suggestionResponse`. -/
def suggestionRuntime : Runtime :=
  ⟨fun _ => .ok suggestionResponse, fun _ => false⟩

/-- A search state left by an earlier search that found nothing. -/
def staleErrorState : SearchState :=
  ⟨.str "asprin", .arr [], .arr [], .str "No results found"⟩

/-- A search state after typing `asprin`, nothing searched yet. -/
def typedQueryState : SearchState :=
  ⟨.str "asprin", .arr [], .arr [], .str ""⟩

/-- A name-lookup response with two concept subsets of two and one records. -/
def twoSubsetResponse : JSVal :=
  .obj [("nlmRxNorm", .obj [("drugGroup", .obj [("name", .null), ("conceptGroup", .arr
    [.obj [("tty", .str "SBD"), ("conceptProperties", .arr
       [.obj [("rxcui", .str "1"), ("name", .str "A")],
        .obj [("rxcui", .str "2"), ("name", .str "B")]])],
     .obj [("tty", .str "SCD"), ("conceptProperties", .arr
       [.obj [("rxcui", .str "3"), ("name", .str "C")]])]])])])]

/-- A runtime whose every request resolves with `twoSubsetResponse`. -/
def twoSubsetRuntime : Runtime :=
  ⟨fun _ => .ok twoSubsetResponse, fun _ => false⟩

/-- A response whose only concept subset has an empty item list. -/
def emptySubsetResponse : JSVal :=
  .obj [("nlmRxNorm", .obj [("drugGroup", .obj [("conceptGroup", .arr
    [.obj [("conceptProperties", .arr [])]])])])]

/-- A runtime whose every request resolves with `emptySubsetResponse`. -/
def emptySubsetRuntime : Runtime :=
  ⟨fun _ => .ok emptySubsetResponse, fun _ => false⟩

/-- A response whose drug group has no `conceptGroup`. -/
def noGroupResponse : JSVal :=
  .obj [("nlmRxNorm", .obj [("drugGroup", .obj [("name", .str "zzz")])])]

/-- A runtime whose every request resolves with `noGroupResponse`. -/
def noGroupRuntime : Runtime :=
  ⟨fun _ => .ok noGroupResponse, fun _ => false⟩

/-- A runtime whose every request is rejected. -/
def failingRuntime : Runtime :=
  ⟨fun _ => .error .requestFailed, fun _ => false⟩

/-- The search state of a render that shows the suggestion `aspirin` for the query `asprin`. -/
def shownSuggestionState : SearchState :=
  ⟨.str "asprin", .arr [], .arr [.str "aspirin"], .str ""⟩

/-- A search state holding one result record. -/
def oneResultState : SearchState :=
  ⟨.str "acetaminophen",
   .arr [.obj [("rxcui", .str "161"), ("name", .str "Acetaminophen")]], .arr [], .str ""⟩

/-- A details state holding a record and one code entry. -/
def populatedDetailsState : DetailsState :=
  ⟨.obj [("rxcui", .str "161"), ("name", .str "Acetaminophen"), ("synonym", .str "APAP")],
   .arr [.obj [("ndc", .str "00000-000-00")]], .str ""⟩

/-- The concept-lookup response for identifier `123`: Acetaminophen / APAP. -/
def acetaminophenConcept : JSVal :=
  .obj [("nlmRxNorm", .obj [("drugGroup", .obj [("conceptGroup", .arr
    [.obj [("conceptProperties", .arr
      [.obj [("rxcui", .str "123"), ("name", .str "Acetaminophen"),
             ("synonym", .str "APAP")]])]])])])]

/-- A code-lookup response whose `ndcList` is a list of code strings. -/
def codeStringsResponse : JSVal :=
  .obj [("nlmRxNorm", .obj [("ndcGroup", .obj [("ndcList", .arr [.str "00000-000-00"])])])]

/-- A code-lookup response whose `ndcList` entries carry the code in an `ndc` field. -/
def codeRecordsResponse : JSVal :=
  .obj [("nlmRxNorm", .obj [("ndcGroup", .obj [("ndcList", .arr
    [.obj [("ndc", .str "00000-000-00")]])])])]

/-- A code-lookup response with `nlmRxNorm` but without `ndcGroup`. -/
def noCodeGroupResponse : JSVal :=
  .obj [("nlmRxNorm", .obj [("rxcui", .str "123")])]

/-- Concept lookup of `123` resolves with the concept, the code lookup with code strings. -/
def codeStringsRuntime : Runtime :=
  ⟨fun url => if url = detailsUrl (.str "123") then .ok acetaminophenConcept
     else .ok codeStringsResponse, fun _ => false⟩

/-- Concept lookup of `123` resolves with the concept, the code lookup with code entries. -/
def codeRecordsRuntime : Runtime :=
  ⟨fun url => if url = detailsUrl (.str "123") then .ok acetaminophenConcept
     else .ok codeRecordsResponse, fun _ => false⟩

/-- Concept lookup of `123` resolves with the concept, the code lookup has no code group. -/
def noCodeGroupRuntime : Runtime :=
  ⟨fun url => if url = detailsUrl (.str "123") then .ok acetaminophenConcept
     else .ok noCodeGroupResponse, fun _ => false⟩

/-- A concept-lookup response whose drug group has no `conceptGroup`. -/
def noSubsetListResponse : JSVal :=
  .obj [("nlmRxNorm", .obj [("drugGroup", .obj [("name", .null)])])]

/-- A runtime whose every request resolves with `noSubsetListResponse`. -/
def noSubsetListRuntime : Runtime :=
  ⟨fun _ => .ok noSubsetListResponse, fun _ => false⟩

/-! ## Basic facts about the language primitives -/

theorem getProp_obj_of_arr {v : JSVal} {k : String} {xs : List JSVal}
    (h : v.getProp k = .ok (.arr xs)) : ∃ fs, v = .obj fs := by
  cases v <;> simp [JSVal.getProp] at h ⊢
  all_goals (split at h <;> simp at h)

theorem getProp_obj_of_obj {v : JSVal} {k : String} {gs : List (String × JSVal)}
    (h : v.getProp k = .ok (.obj gs)) : ∃ fs, v = .obj fs := by
  cases v <;> simp [JSVal.getProp] at h ⊢
  all_goals (split at h <;> simp at h)

theorem getProp_obj_of_str {v : JSVal} {k s : String}
    (h : v.getProp k = .ok (.str s)) : ∃ fs, v = .obj fs := by
  cases v <;> simp [JSVal.getProp] at h ⊢
  all_goals (split at h <;> simp at h)

theorem getProp_obj_eq_field (fs : List (String × JSVal)) (k : String) :
    (JSVal.obj fs).getProp k = .ok ((JSVal.obj fs).field k) := rfl

theorem evalPath_append (v : JSVal) (p q : List Step) :
    evalPath v (p ++ q) = (evalPath v p).bind (fun w => evalPath w q) := by
  induction p generalizing v with
  | nil => rfl
  | cons s rest ih =>
    simp only [List.cons_append, evalPath]
    cases evalStep v s with
    | error e => rfl
    | ok w => exact ih w

theorem evalPath_undefined_cons (s : Step) (rest : List Step) :
    evalPath .undefined (s :: rest) = .error .typeError := by
  cases s <;> rfl

theorem mapIdxFrom_ok {β : Type} (g : JSVal → Nat → β) (i : Nat) (xs : List JSVal) :
    mapIdxFrom (fun x j => .ok (g x j)) i xs
      = .ok ((xs.enumFrom i).map (fun p => g p.2 p.1)) := by
  induction xs generalizing i with
  | nil => rfl
  | cons x rest ih => simp [mapIdxFrom, ih, List.enumFrom]

theorem mapIdxFrom_congr_ok {β : Type} (f : JSVal → Nat → Except JSError β) (g : JSVal → β)
    (xs : List JSVal) (h : ∀ x ∈ xs, ∀ j, f x j = .ok (g x)) (i : Nat) :
    mapIdxFrom f i xs = .ok (xs.map g) := by
  induction xs generalizing i with
  | nil => rfl
  | cons x rest ih =>
    have hx := h x (List.mem_cons_self _ _) i
    have hr := ih (fun y hy j => h y (List.mem_cons_of_mem _ hy) j) (i + 1)
    simp [mapIdxFrom, hx, hr]

/-! ## Rendering of the search screen -/

theorem renderSearchResults_error (rt : Runtime) (st : SearchState)
    (h : st.error.truthy = true) :
    renderSearchResults rt st = .ok (errorView st.error) := by
  simp [renderSearchResults, h, errorView]

theorem renderSearchResults_suggestions (rt : Runtime) (st : SearchState) (terms : List JSVal)
    (he : st.error.truthy = false) (hs : st.suggestedTerms = .arr terms) (hne : terms ≠ []) :
    renderSearchResults rt st = .ok (suggestionView terms) := by
  have hlen : 0 < terms.length := List.length_pos.mpr hne
  simp [renderSearchResults, he, hs, JSVal.getProp, JSVal.gtZero, hlen, jsMap, mapIdxFrom_ok,
    suggestionView, List.enum, bind, Except.bind, pure, Except.pure]

theorem renderResult_obj (fs : List (String × JSVal)) (j : Nat) :
    renderResult (.obj fs) j
      = .ok (resultItem ((JSVal.obj fs).field "rxcui") ((JSVal.obj fs).field "name")) := rfl

theorem renderSearchResults_results (rt : Runtime) (st : SearchState) (results : List JSVal)
    (he : st.error.truthy = false) (hs : st.suggestedTerms = .arr [])
    (hr : st.searchResults = .arr results) (hrec : ∀ r ∈ results, ∃ fs, r = .obj fs) :
    renderSearchResults rt st = .ok (resultView results) := by
  have hmap : mapIdxFrom renderResult 0 results
      = .ok (results.map (fun r => resultItem (r.field "rxcui") (r.field "name"))) := by
    apply mapIdxFrom_congr_ok
    intro r hmem j
    obtain ⟨fs, rfl⟩ := hrec r hmem
    exact renderResult_obj fs j
  simp [renderSearchResults, he, hs, hr, JSVal.getProp, JSVal.gtZero, jsMap, hmap,
    resultView, bind, Except.bind, pure, Except.pure]

/-- C9: on a search-screen state made of an error message, a suggestion list
and a list of result records, `renderSearchResults` returns the error view when
the message is non-empty, otherwise the suggestion view when the suggestion
list is non-empty, otherwise the result view; the three views are pairwise
different elements, so exactly one of them is rendered. -/
theorem renderSearchResults_priority (rt : Runtime) (query : JSVal) (message : String)
    (terms : List JSVal) (records : List (List (String × JSVal))) :
    renderSearchResults rt ⟨query, .arr (records.map .obj), .arr terms, .str message⟩
        = .ok (if message ≠ "" then errorView (.str message)
               else if terms.length ≠ 0 then suggestionView terms
               else resultView (records.map .obj))
      ∧ errorView (.str message) ≠ suggestionView terms
      ∧ errorView (.str message) ≠ resultView (records.map .obj)
      ∧ suggestionView terms ≠ resultView (records.map .obj) := by
  refine ⟨?_, ?_, ?_, ?_⟩
  · by_cases hm : message = ""
    · by_cases ht : terms = []
      · subst hm; subst ht
        rw [renderSearchResults_results rt _ (records.map .obj) (by simp [JSVal.truthy]) rfl rfl
          (by intro r hr; simp at hr; obtain ⟨fs, _, rfl⟩ := hr; exact ⟨fs, rfl⟩)]
        simp
      · subst hm
        rw [renderSearchResults_suggestions rt _ terms (by simp [JSVal.truthy]) rfl ht]
        have hl : terms.length ≠ 0 := fun h => ht (List.length_eq_zero.mp h)
        simp [hl]
    · rw [renderSearchResults_error rt _ (by simp [JSVal.truthy, hm])]
      simp [hm]
  · simp [errorView, suggestionView]
  · simp [errorView, resultView]
  · simp [suggestionView, resultView]

/-! ## The search operation -/

theorem evalPath_cons_ok {v w : JSVal} {s : Step} {rest : List Step}
    (h : evalPath v (s :: rest) = .ok w) :
    ∃ u, evalStep v s = .ok u ∧ evalPath u rest = .ok w := by
  simp only [evalPath] at h
  cases hs : evalStep v s with
  | error e => simp [hs] at h
  | ok u => exact ⟨u, rfl, by simpa [hs] using h⟩

theorem evalPath_nil_ok {v w : JSVal} (h : evalPath v [] = .ok w) : v = w := by
  simpa [evalPath] using h

theorem searchUpdate_suggestions (rt : Runtime) (data : JSVal) (terms : List JSVal)
    (h : evalPath data [.prop "suggestionGroup", .prop "suggestionList", .prop "suggestion"]
      = .ok (.arr terms)) :
    searchUpdate rt data = .ok (fun st => { st with suggestedTerms := .arr terms }) := by
  obtain ⟨sg, h1, h⟩ := evalPath_cons_ok h
  obtain ⟨sl, h2, h⟩ := evalPath_cons_ok h
  obtain ⟨su, h3, h⟩ := evalPath_cons_ok h
  have := evalPath_nil_ok h
  subst this
  simp only [evalStep] at h1 h2 h3
  obtain ⟨fs, rfl⟩ := getProp_obj_of_arr h3
  obtain ⟨gs, rfl⟩ := getProp_obj_of_obj h2
  simp [searchUpdate, h1, h2, h3, jsAnd, JSVal.truthy, bind, Except.bind, pure, Except.pure]

/-- C1 (as stated, refuted): with the error message of an earlier search still
stored, a response carrying the suggestion list `["aspirin"]` leaves that
message in place, and the screen renders the error view, not the suggestions. -/
theorem handleSearch_stale_error_hides_suggestions :
    (handleSearch suggestionRuntime staleErrorState staleErrorState).1.error
        = .str "No results found"
      ∧ renderSearchResults suggestionRuntime
          (handleSearch suggestionRuntime staleErrorState staleErrorState).1
        = .ok (errorView (.str "No results found"))
      ∧ renderSearchResults suggestionRuntime
          (handleSearch suggestionRuntime staleErrorState staleErrorState).1
        ≠ .ok (suggestionView [.str "aspirin"]) := by
  refine ⟨rfl, rfl, ?_⟩
  have h : renderSearchResults suggestionRuntime
      (handleSearch suggestionRuntime staleErrorState staleErrorState).1
        = .ok (errorView (.str "No results found")) := rfl
  rw [h]
  simp [errorView, suggestionView]

/-- C1 (amended): from any prior state whose error message is empty, a response
carrying a non-empty suggestion list makes `handleSearch` store exactly that
list, leave the error empty and the stored results untouched, and the screen
then renders the suggestion view of exactly that list. -/
theorem handleSearch_suggestions (rt : Runtime) (closure st : SearchState) (data : JSVal)
    (terms : List JSVal)
    (hget : rt.httpGet (searchUrl closure.searchTerm) = .ok data)
    (hpath : evalPath data [.prop "suggestionGroup", .prop "suggestionList", .prop "suggestion"]
      = .ok (.arr terms))
    (hne : terms ≠ [])
    (herr : st.error = .str "") :
    (handleSearch rt closure st).1 = { st with suggestedTerms := .arr terms }
      ∧ (handleSearch rt closure st).1.error = .str ""
      ∧ renderSearchResults rt (handleSearch rt closure st).1 = .ok (suggestionView terms) := by
  have hst : (handleSearch rt closure st).1 = { st with suggestedTerms := .arr terms } := by
    simp [handleSearch, hget, Except.bind, searchUpdate_suggestions rt data terms hpath]
  refine ⟨hst, ?_, ?_⟩
  · rw [hst]; exact herr
  · rw [hst]
    exact renderSearchResults_suggestions rt _ terms (by simp [herr, JSVal.truthy]) rfl hne

/-- Instance of C1 (amended): query `asprin`, empty error, suggestions `["aspirin"]`. -/
theorem handleSearch_suggestions_witness :
    suggestionRuntime.httpGet (searchUrl typedQueryState.searchTerm) = .ok suggestionResponse
      ∧ (handleSearch suggestionRuntime typedQueryState typedQueryState).1
          = { typedQueryState with suggestedTerms := .arr [.str "aspirin"] }
      ∧ renderSearchResults suggestionRuntime
          (handleSearch suggestionRuntime typedQueryState typedQueryState).1
          = .ok (suggestionView [.str "aspirin"]) :=
  have h := handleSearch_suggestions suggestionRuntime typedQueryState typedQueryState
    suggestionResponse [.str "aspirin"] rfl rfl (by simp) rfl
  ⟨rfl, h.1, h.2.2⟩

theorem mapIdxFrom_conceptProperties (groups : List JSVal) (subsets : List (List JSVal))
    (h : List.Forall₂ (fun g items => g.getProp "conceptProperties" = .ok (.arr items))
      groups subsets) (i : Nat) :
    mapIdxFrom conceptPropertiesOf i groups = .ok (subsets.map .arr) := by
  induction h generalizing i with
  | nil => rfl
  | cons hg _ ih => simp [mapIdxFrom, conceptPropertiesOf, hg, ih]

theorem getProp_arr_length (xs : List JSVal) :
    (JSVal.arr xs).getProp "length" = .ok (.num xs.length) := rfl

theorem spread_comp_arr : spread ∘ JSVal.arr = id := rfl

theorem searchUpdate_results (rt : Runtime) (data : JSVal) (groups : List JSVal)
    (subsets : List (List JSVal))
    (hnosug : absent data [.prop "suggestionGroup"])
    (hpath : evalPath data [.prop "nlmRxNorm", .prop "drugGroup", .prop "conceptGroup"]
      = .ok (.arr groups))
    (hne : groups ≠ [])
    (hitems : List.Forall₂ (fun g items => g.getProp "conceptProperties" = .ok (.arr items))
      groups subsets) :
    searchUpdate rt data = .ok (fun st => { st with searchResults := .arr subsets.flatten }) := by
  obtain ⟨sg, h0, h⟩ := evalPath_cons_ok hnosug
  have := evalPath_nil_ok h
  subst this
  obtain ⟨nlm, h1, h⟩ := evalPath_cons_ok hpath
  obtain ⟨dg, h2, h⟩ := evalPath_cons_ok h
  obtain ⟨cg, h3, h⟩ := evalPath_cons_ok h
  have := evalPath_nil_ok h
  subst this
  simp only [evalStep] at h0 h1 h2 h3
  obtain ⟨fs, rfl⟩ := getProp_obj_of_arr h3
  obtain ⟨gs, rfl⟩ := getProp_obj_of_obj h2
  have hlen : 0 < groups.length := List.length_pos.mpr hne
  simp [searchUpdate, h0, h1, h2, h3, jsAnd, JSVal.truthy, getProp_arr_length, JSVal.gtZero, hlen,
    jsFlatMap, jsMap, mapIdxFrom_conceptProperties groups subsets hitems, spread_comp_arr,
    bind, Except.bind, pure, Except.pure, Functor.map, Except.map]

/-- C2: for a response without a suggestion group whose drug group holds one or
more concept subsets, each carrying a list of item records, a search issued from
the initial state stores the concatenation of the item lists (subsets in
response order, items in their order within each subset) and the screen renders
the result view of exactly that concatenation. -/
theorem handleSearch_flattens_subsets (rt : Runtime) (closure : SearchState) (data : JSVal)
    (groups : List JSVal) (subsets : List (List JSVal))
    (hget : rt.httpGet (searchUrl closure.searchTerm) = .ok data)
    (hnosug : absent data [.prop "suggestionGroup"])
    (hpath : evalPath data [.prop "nlmRxNorm", .prop "drugGroup", .prop "conceptGroup"]
      = .ok (.arr groups))
    (hne : groups ≠ [])
    (hitems : List.Forall₂ (fun g items => g.getProp "conceptProperties" = .ok (.arr items))
      groups subsets)
    (hrec : ∀ items ∈ subsets, ∀ r ∈ items, ∃ fs, r = .obj fs) :
    (handleSearch rt closure SearchState.initial).1.searchResults = .arr subsets.flatten
      ∧ renderSearchResults rt (handleSearch rt closure SearchState.initial).1
          = .ok (resultView subsets.flatten) := by
  have hst : (handleSearch rt closure SearchState.initial).1
      = { SearchState.initial with searchResults := .arr subsets.flatten } := by
    simp [handleSearch, hget, Except.bind,
      searchUpdate_results rt data groups subsets hnosug hpath hne hitems]
  rw [hst]
  refine ⟨rfl, ?_⟩
  apply renderSearchResults_results rt
    { SearchState.initial with searchResults := .arr subsets.flatten } subsets.flatten rfl rfl rfl
  intro r hr
  obtain ⟨items, hi, hri⟩ := List.mem_flatten.mp hr
  exact hrec items hi r hri

/-- Instance of C2: two subsets holding the records 1, 2 and 3. -/
theorem handleSearch_flattens_subsets_witness :
    (handleSearch twoSubsetRuntime SearchState.initial SearchState.initial).1.searchResults
        = .arr [.obj [("rxcui", .str "1"), ("name", .str "A")],
                .obj [("rxcui", .str "2"), ("name", .str "B")],
                .obj [("rxcui", .str "3"), ("name", .str "C")]]
      ∧ renderSearchResults twoSubsetRuntime
          (handleSearch twoSubsetRuntime SearchState.initial SearchState.initial).1
        = .ok (resultView [.obj [("rxcui", .str "1"), ("name", .str "A")],
                .obj [("rxcui", .str "2"), ("name", .str "B")],
                .obj [("rxcui", .str "3"), ("name", .str "C")]]) :=
  handleSearch_flattens_subsets twoSubsetRuntime SearchState.initial twoSubsetResponse
    [.obj [("tty", .str "SBD"), ("conceptProperties", .arr
       [.obj [("rxcui", .str "1"), ("name", .str "A")],
        .obj [("rxcui", .str "2"), ("name", .str "B")]])],
     .obj [("tty", .str "SCD"), ("conceptProperties", .arr
       [.obj [("rxcui", .str "3"), ("name", .str "C")]])]]
    [[.obj [("rxcui", .str "1"), ("name", .str "A")],
      .obj [("rxcui", .str "2"), ("name", .str "B")]],
     [.obj [("rxcui", .str "3"), ("name", .str "C")]]]
    rfl rfl rfl (by simp)
    (.cons rfl (.cons rfl .nil))
    (by
      intro items hi r hr
      simp at hi
      rcases hi with rfl | rfl <;> simp at hr
      · rcases hr with rfl | rfl <;> exact ⟨_, rfl⟩
      · subst hr; exact ⟨_, rfl⟩)

theorem jsAnd_of_absent {a : JSVal} {k : String} (h : a.getProp k = .ok .undefined) :
    ∃ c, jsAnd a (a.getProp k) = .ok c ∧ c.truthy = false := by
  by_cases ht : a.truthy = true
  · exact ⟨.undefined, by simp [jsAnd, ht, h], rfl⟩
  · exact ⟨a, by simp [jsAnd, ht], by simpa using ht⟩

theorem jsAnd_undefined (b : Except JSError JSVal) : jsAnd .undefined b = .ok .undefined := rfl

theorem jsAnd_arr (xs : List JSVal) (b : Except JSError JSVal) : jsAnd (.arr xs) b = b := rfl

theorem truthy_undefined : JSVal.truthy .undefined = false := rfl

theorem truthy_bool (b : Bool) : JSVal.truthy (.bool b) = b := rfl

theorem searchUpdate_no_results (rt : Runtime) (data : JSVal)
    (hnosug : absent data [.prop "suggestionGroup"]
      ∨ absent data [.prop "suggestionGroup", .prop "suggestionList"])
    (hnone : absent data [.prop "nlmRxNorm"]
      ∨ absent data [.prop "nlmRxNorm", .prop "drugGroup"]
      ∨ absent data [.prop "nlmRxNorm", .prop "drugGroup", .prop "conceptGroup"]
      ∨ evalPath data [.prop "nlmRxNorm", .prop "drugGroup", .prop "conceptGroup"]
          = .ok (.arr [])) :
    searchUpdate rt data = .ok (fun st => { st with error := .str "No results found" }) := by
  have hA : ∃ sg c, data.getProp "suggestionGroup" = .ok sg
      ∧ jsAnd sg (sg.getProp "suggestionList") = .ok c ∧ c.truthy = false := by
    rcases hnosug with h | h
    · obtain ⟨sg, h0, h⟩ := evalPath_cons_ok h
      have := evalPath_nil_ok h
      subst this
      exact ⟨.undefined, .undefined, h0, rfl, rfl⟩
    · obtain ⟨sg, h0, h⟩ := evalPath_cons_ok h
      obtain ⟨sl, h1, h⟩ := evalPath_cons_ok h
      have := evalPath_nil_ok h
      subst this
      obtain ⟨c, hc, hf⟩ := jsAnd_of_absent h1
      exact ⟨sg, c, h0, hc, hf⟩
  obtain ⟨sg, c, h0, hc, hf⟩ := hA
  have hB : ∃ nlm dg, data.getProp "nlmRxNorm" = .ok nlm
      ∧ jsAnd nlm (nlm.getProp "drugGroup") = .ok dg
      ∧ (dg.truthy = false ∨ dg.getProp "conceptGroup" = .ok .undefined
          ∨ dg.getProp "conceptGroup" = .ok (.arr [])) := by
    rcases hnone with h | h | h | h
    · obtain ⟨nlm, h1, h⟩ := evalPath_cons_ok h
      have := evalPath_nil_ok h
      subst this
      exact ⟨.undefined, .undefined, h1, rfl, Or.inl rfl⟩
    · obtain ⟨nlm, h1, h⟩ := evalPath_cons_ok h
      obtain ⟨dg, h2, h⟩ := evalPath_cons_ok h
      have := evalPath_nil_ok h
      subst this
      obtain ⟨d, hd, hdf⟩ := jsAnd_of_absent h2
      exact ⟨nlm, d, h1, hd, Or.inl hdf⟩
    · obtain ⟨nlm, h1, h⟩ := evalPath_cons_ok h
      obtain ⟨dg, h2, h⟩ := evalPath_cons_ok h
      obtain ⟨cg, h3, h⟩ := evalPath_cons_ok h
      have := evalPath_nil_ok h
      subst this
      simp only [evalStep] at h2 h3
      by_cases ht : nlm.truthy = true
      · exact ⟨nlm, dg, h1, by simp [jsAnd, ht, h2], Or.inr (Or.inl h3)⟩
      · exact ⟨nlm, nlm, h1, by simp [jsAnd, ht], Or.inl (by simpa using ht)⟩
    · obtain ⟨nlm, h1, h⟩ := evalPath_cons_ok h
      obtain ⟨dg, h2, h⟩ := evalPath_cons_ok h
      obtain ⟨cg, h3, h⟩ := evalPath_cons_ok h
      have := evalPath_nil_ok h
      subst this
      simp only [evalStep] at h2 h3
      by_cases ht : nlm.truthy = true
      · exact ⟨nlm, dg, h1, by simp [jsAnd, ht, h2], Or.inr (Or.inr h3)⟩
      · exact ⟨nlm, nlm, h1, by simp [jsAnd, ht], Or.inl (by simpa using ht)⟩
  obtain ⟨nlm, dg, h1, hd, hcase⟩ := hB
  rcases hcase with hdf | hcg | hcg
  · simp [searchUpdate, h0, hc, hf, h1, hd, hdf, bind, Except.bind, pure, Except.pure]
  · by_cases hdt : dg.truthy = true
    · simp [searchUpdate, h0, hc, hf, h1, hd, hdt, hcg, jsAnd_undefined, truthy_undefined,
        bind, Except.bind, pure, Except.pure]
    · simp [searchUpdate, h0, hc, hf, h1, hd, hdt, bind, Except.bind, pure, Except.pure]
  · by_cases hdt : dg.truthy = true
    · simp [searchUpdate, h0, hc, hf, h1, hd, hdt, hcg, jsAnd_arr, truthy_bool,
        getProp_arr_length, JSVal.gtZero, bind, Except.bind, pure, Except.pure, Functor.map,
        Except.map]
    · simp [searchUpdate, h0, hc, hf, h1, hd, hdt, bind, Except.bind, pure, Except.pure]

/-- C3 (as stated, refuted): for a response without suggestions whose only
concept subset has an empty item list, a search from the initial state stores
the empty result list, leaves the error empty, and the screen renders an empty
result view instead of the message `No results found`. -/
theorem handleSearch_empty_subsets_no_message :
    (handleSearch emptySubsetRuntime SearchState.initial SearchState.initial).1.error = .str ""
      ∧ (handleSearch emptySubsetRuntime SearchState.initial SearchState.initial).1.searchResults
          = .arr []
      ∧ renderSearchResults emptySubsetRuntime
          (handleSearch emptySubsetRuntime SearchState.initial SearchState.initial).1
        = .ok (resultView [])
      ∧ renderSearchResults emptySubsetRuntime
          (handleSearch emptySubsetRuntime SearchState.initial SearchState.initial).1
        ≠ .ok (errorView (.str "No results found")) := by
  refine ⟨rfl, rfl, rfl, ?_⟩
  have h : renderSearchResults emptySubsetRuntime
      (handleSearch emptySubsetRuntime SearchState.initial SearchState.initial).1
        = .ok (resultView []) := rfl
  rw [h]
  simp [errorView, resultView]

/-- C3 (amended): for a response that has no suggestion list and whose drug
group is absent, or has no subset list, or has an empty subset list, and for
every prior state, `handleSearch` sets the error to `No results found` (changing
nothing else) and the screen renders exactly that message. -/
theorem handleSearch_no_results (rt : Runtime) (closure st : SearchState) (data : JSVal)
    (hget : rt.httpGet (searchUrl closure.searchTerm) = .ok data)
    (hnosug : absent data [.prop "suggestionGroup"]
      ∨ absent data [.prop "suggestionGroup", .prop "suggestionList"])
    (hnone : absent data [.prop "nlmRxNorm"]
      ∨ absent data [.prop "nlmRxNorm", .prop "drugGroup"]
      ∨ absent data [.prop "nlmRxNorm", .prop "drugGroup", .prop "conceptGroup"]
      ∨ evalPath data [.prop "nlmRxNorm", .prop "drugGroup", .prop "conceptGroup"]
          = .ok (.arr [])) :
    (handleSearch rt closure st).1 = { st with error := .str "No results found" }
      ∧ renderSearchResults rt (handleSearch rt closure st).1
          = .ok (errorView (.str "No results found")) := by
  have hst : (handleSearch rt closure st).1 = { st with error := .str "No results found" } := by
    simp [handleSearch, hget, Except.bind, searchUpdate_no_results rt data hnosug hnone]
  rw [hst]
  exact ⟨rfl, renderSearchResults_error rt _ rfl⟩

/-- Instance of C3 (amended): a drug group without a subset list, prior error set. -/
theorem handleSearch_no_results_witness :
    absent noGroupResponse [.prop "suggestionGroup"]
      ∧ absent noGroupResponse [.prop "nlmRxNorm", .prop "drugGroup", .prop "conceptGroup"]
      ∧ (handleSearch noGroupRuntime typedQueryState staleErrorState).1
          = { staleErrorState with error := .str "No results found" }
      ∧ renderSearchResults noGroupRuntime
          (handleSearch noGroupRuntime typedQueryState staleErrorState).1
          = .ok (errorView (.str "No results found")) :=
  have h := handleSearch_no_results noGroupRuntime typedQueryState staleErrorState
    noGroupResponse rfl (Or.inl rfl) (Or.inr (Or.inr (Or.inl rfl)))
  ⟨rfl, rfl, h.1, h.2⟩

/-! ## Suggestion click, transport failure, result links -/

theorem handleSuggestionClick_request (rt : Runtime) (suggestedTerm : JSVal)
    (closure st : SearchState) :
    (handleSuggestionClick rt suggestedTerm closure st).2 = [searchUrl closure.searchTerm] := by
  unfold handleSuggestionClick handleSearch
  dsimp only
  cases (rt.httpGet (searchUrl closure.searchTerm)).bind (searchUpdate rt) <;> rfl

/-- C4 (evaluation at the failing input): with the query `asprin` on screen,
clicking the suggestion `aspirin` sets the query to `aspirin` and issues exactly
one request, but that request carries the previous query `asprin` as its name
parameter, not the clicked suggestion. -/
theorem handleSuggestionClick_sends_previous_query :
    (handleSuggestionClick suggestionRuntime (.str "aspirin")
        shownSuggestionState shownSuggestionState).1.searchTerm = .str "aspirin"
      ∧ (handleSuggestionClick suggestionRuntime (.str "aspirin")
          shownSuggestionState shownSuggestionState).2
        = ["https://rxnav.nlm.nih.gov/REST/drugs.json?name=asprin"]
      ∧ (handleSuggestionClick suggestionRuntime (.str "aspirin")
          shownSuggestionState shownSuggestionState).2
        ≠ ["https://rxnav.nlm.nih.gov/REST/drugs.json?name=aspirin"] := by
  refine ⟨rfl, rfl, ?_⟩
  decide

/-- C6 (evaluation at the failing input): for the stored result with identifier
`161` and name `Acetaminophen`, the rendered item is keyed by the identifier but
its link targets `/drugs/Acetaminophen`, the name, and not `/drugs/161`. -/
theorem renderSearchResults_link_uses_name :
    renderSearchResults suggestionRuntime oneResultState
      = .ok (.elem "ul" none []
          [.elem "li" (some (.str "161")) []
            [.elem "Link" none [("to", .val (.str "/drugs/Acetaminophen"))]
              [.expr (.str "Acetaminophen")]]])
      ∧ renderSearchResults suggestionRuntime oneResultState
        ≠ .ok (.elem "ul" none []
          [.elem "li" (some (.str "161")) []
            [.elem "Link" none [("to", .val (.str "/drugs/161"))]
              [.expr (.str "Acetaminophen")]]]) := by
  have h : renderSearchResults suggestionRuntime oneResultState
      = .ok (.elem "ul" none []
          [.elem "li" (some (.str "161")) []
            [.elem "Link" none [("to", .val (.str "/drugs/Acetaminophen"))]
              [.expr (.str "Acetaminophen")]]]) := rfl
  refine ⟨h, ?_⟩
  rw [h]
  simp

/-- When the component receives no `match` prop, as in the element
`<DrugDetailsPage />` written in `App`, reading `match.params` throws. -/
theorem DrugDetailsPage_without_match (st : DetailsState) :
    DrugDetailsPage .undefined st = .error .typeError := rfl

theorem DrugDetailsPage_error (ident : JSVal) (st : DetailsState) (h : st.error.truthy = true) :
    DrugDetailsPage (routeMatch ident) st = .ok (errorView st.error) := by
  simp [DrugDetailsPage, routeMatch, JSVal.getProp, h, errorView, bind, Except.bind, pure,
    Except.pure]

theorem fetchDrugDetails_error_of_failure (rt : Runtime) (ident : JSVal) (st : DetailsState)
    (e : JSError)
    (h : rt.httpGet (detailsUrl ident) = .error e ∨ rt.httpGet (ndcsUrl ident) = .error e) :
    (fetchDrugDetails rt ident st).1.error = .str "Failed to fetch drug details" := by
  unfold fetchDrugDetails
  rcases h with h | h
  · simp [h, Except.bind]
  · simp only [h, Except.bind]
    split
    · rfl
    · rfl

/-- C5: for every prior state, when the name lookup is rejected `handleSearch`
sets the error to `Failed to fetch search results`, and when the concept lookup
or the code lookup is rejected `fetchDrugDetails` sets the error to
`Failed to fetch drug details`; in both cases the screen renders exactly the
error view of that message. -/
theorem transport_failure_shows_fixed_message (rt₁ rt₂ : Runtime) (closure st : SearchState)
    (ident : JSVal) (dst : DetailsState) (e₁ e₂ : JSError)
    (hsearch : rt₁.httpGet (searchUrl closure.searchTerm) = .error e₁)
    (hdetails : rt₂.httpGet (detailsUrl ident) = .error e₂
      ∨ rt₂.httpGet (ndcsUrl ident) = .error e₂) :
    ((handleSearch rt₁ closure st).1.error = .str "Failed to fetch search results"
        ∧ renderSearchResults rt₁ (handleSearch rt₁ closure st).1
            = .ok (errorView (.str "Failed to fetch search results")))
      ∧ ((fetchDrugDetails rt₂ ident dst).1.error = .str "Failed to fetch drug details"
        ∧ DrugDetailsPage (routeMatch ident) (fetchDrugDetails rt₂ ident dst).1
            = .ok (errorView (.str "Failed to fetch drug details"))) := by
  constructor
  · have hst : (handleSearch rt₁ closure st).1
        = { st with error := .str "Failed to fetch search results" } := by
      simp [handleSearch, hsearch, Except.bind]
    rw [hst]
    exact ⟨rfl, renderSearchResults_error rt₁ _ rfl⟩
  · have herr := fetchDrugDetails_error_of_failure rt₂ ident dst e₂ hdetails
    refine ⟨herr, ?_⟩
    rw [DrugDetailsPage_error ident _ (by rw [herr]; rfl), herr]

/-- Instance of C5: every request is rejected, both screens hold earlier data. -/
theorem transport_failure_shows_fixed_message_witness :
    failingRuntime.httpGet (searchUrl oneResultState.searchTerm) = .error .requestFailed
      ∧ renderSearchResults failingRuntime
          (handleSearch failingRuntime oneResultState oneResultState).1
          = .ok (errorView (.str "Failed to fetch search results"))
      ∧ DrugDetailsPage (routeMatch (.str "161"))
          (fetchDrugDetails failingRuntime (.str "161") populatedDetailsState).1
          = .ok (errorView (.str "Failed to fetch drug details")) :=
  have h := transport_failure_shows_fixed_message failingRuntime failingRuntime oneResultState
    oneResultState (.str "161") populatedDetailsState .requestFailed .requestFailed rfl
    (Or.inl rfl)
  ⟨rfl, h.1.2, h.2.2⟩

/-! ## The details screen -/

theorem ndcsUpdate_list (data : JSVal) (entries : List JSVal)
    (h : evalPath data [.prop "nlmRxNorm", .prop "ndcGroup", .prop "ndcList"]
      = .ok (.arr entries)) :
    ndcsUpdate data = .ok (fun st => { st with ndcList := .arr entries }) := by
  obtain ⟨nlm, h1, h⟩ := evalPath_cons_ok h
  obtain ⟨grp, h2, h⟩ := evalPath_cons_ok h
  obtain ⟨lst, h3, h⟩ := evalPath_cons_ok h
  have := evalPath_nil_ok h
  subst this
  simp only [evalStep] at h1 h2 h3
  obtain ⟨fs, rfl⟩ := getProp_obj_of_arr h3
  obtain ⟨gs, rfl⟩ := getProp_obj_of_obj h2
  simp [ndcsUpdate, h1, h2, h3, jsAnd, JSVal.truthy, bind, Except.bind, pure, Except.pure]

theorem ndcsUpdate_absent (data : JSVal)
    (h : absent data [.prop "nlmRxNorm"] ∨ absent data [.prop "nlmRxNorm", .prop "ndcGroup"]) :
    ndcsUpdate data = .ok id := by
  have hA : ∃ nlm c, data.getProp "nlmRxNorm" = .ok nlm
      ∧ jsAnd nlm (nlm.getProp "ndcGroup") = .ok c ∧ c.truthy = false := by
    rcases h with h | h
    · obtain ⟨nlm, h0, h⟩ := evalPath_cons_ok h
      have := evalPath_nil_ok h
      subst this
      exact ⟨.undefined, .undefined, h0, rfl, rfl⟩
    · obtain ⟨nlm, h0, h⟩ := evalPath_cons_ok h
      obtain ⟨grp, h1, h⟩ := evalPath_cons_ok h
      have := evalPath_nil_ok h
      subst this
      obtain ⟨c, hc, hf⟩ := jsAnd_of_absent h1
      exact ⟨nlm, c, h0, hc, hf⟩
  obtain ⟨nlm, c, h0, hc, hf⟩ := hA
  simp [ndcsUpdate, h0, hc, hf, bind, Except.bind, pure, Except.pure]

theorem mapIdxFrom_renderNdc (entries : List JSVal) (codes : List String)
    (h : List.Forall₂ (fun entry code => entry.getProp "ndc" = .ok (.str code)) entries codes)
    (i : Nat) :
    mapIdxFrom renderNdc i entries = .ok (codes.map (fun code => ndcItem (.str code))) := by
  induction h generalizing i with
  | nil => rfl
  | cons hg _ ih => simp [mapIdxFrom, renderNdc, hg, ih, bind, Except.bind, pure, Except.pure]

theorem truthy_obj (fs : List (String × JSVal)) : JSVal.truthy (.obj fs) = true := rfl

theorem DrugDetailsPage_loaded (ident : JSVal) (st : DetailsState)
    (record : List (String × JSVal)) (entries : List JSVal) (items : List RNode)
    (he : st.error.truthy = false) (hd : st.drugDetails = .obj record)
    (hl : st.ndcList = .arr entries)
    (hitems : mapIdxFrom renderNdc 0 entries = .ok items) :
    DrugDetailsPage (routeMatch ident) st
      = .ok (detailsView ((JSVal.obj record).field "name") ((JSVal.obj record).field "rxcui")
          ((JSVal.obj record).field "synonym") items) := by
  simp [DrugDetailsPage, routeMatch, JSVal.getProp, he, hd, hl, truthy_obj, jsMap, hitems,
    JSVal.field, bind, Except.bind, pure, Except.pure]

theorem fetchDrugDetails_ok (rt : Runtime) (ident : JSVal) (st : DetailsState)
    (concept codes details : JSVal) (update : DetailsState → DetailsState)
    (hget₁ : rt.httpGet (detailsUrl ident) = .ok concept)
    (hpath : evalPath concept detailsPath = .ok details)
    (hget₂ : rt.httpGet (ndcsUrl ident) = .ok codes)
    (hupd : ndcsUpdate codes = .ok update) :
    fetchDrugDetails rt ident st
      = (update { st with drugDetails := details }, [detailsUrl ident, ndcsUrl ident]) := by
  simp [fetchDrugDetails, hget₁, hpath, hget₂, hupd, Except.bind]

/-- C7 (as stated, refuted): for identifier `123`, the concept record
Acetaminophen / APAP and the code-lookup list `["00000-000-00"]` of code
strings, the loaded details screen shows name and synonym but its single code
item holds `undefined`, not the text `00000-000-00`. -/
theorem DrugDetailsPage_code_strings_render_blank :
    DrugDetailsPage (routeMatch (.str "123"))
        (fetchDrugDetails codeStringsRuntime (.str "123") DetailsState.initial).1
      = .ok (detailsView (.str "Acetaminophen") (.str "123") (.str "APAP")
          [.elem "li" (some .undefined) [] [.expr .undefined]])
      ∧ DrugDetailsPage (routeMatch (.str "123"))
          (fetchDrugDetails codeStringsRuntime (.str "123") DetailsState.initial).1
        ≠ .ok (detailsView (.str "Acetaminophen") (.str "123") (.str "APAP")
          [.elem "li" (some (.str "00000-000-00")) [] [.expr (.str "00000-000-00")]]) := by
  have h : DrugDetailsPage (routeMatch (.str "123"))
        (fetchDrugDetails codeStringsRuntime (.str "123") DetailsState.initial).1
      = .ok (detailsView (.str "Acetaminophen") (.str "123") (.str "APAP")
          [.elem "li" (some .undefined) [] [.expr .undefined]]) := rfl
  refine ⟨h, ?_⟩
  rw [h]
  simp [detailsView]

/-- C7 (amended): for every identifier, every concept-lookup response whose
first item of the first subset is a record, and every code-lookup response whose
`nlmRxNorm.ndcGroup.ndcList` is a list of entries each carrying a code string in
its `ndc` field, `fetchDrugDetails` run from a state with empty error leads to a
screen that renders the name, identifier and synonym of that record and one
list item per entry, in order, whose key and text are the code string of the
entry. -/
theorem DrugDetailsPage_renders_details_and_codes (rt : Runtime) (ident : JSVal)
    (st : DetailsState) (concept codesResponse : JSVal) (record : List (String × JSVal))
    (entries : List JSVal) (codes : List String)
    (hget₁ : rt.httpGet (detailsUrl ident) = .ok concept)
    (hpath : evalPath concept detailsPath = .ok (.obj record))
    (hget₂ : rt.httpGet (ndcsUrl ident) = .ok codesResponse)
    (hlist : evalPath codesResponse [.prop "nlmRxNorm", .prop "ndcGroup", .prop "ndcList"]
      = .ok (.arr entries))
    (hcodes : List.Forall₂ (fun entry code => entry.getProp "ndc" = .ok (.str code))
      entries codes)
    (herr : st.error = .str "") :
    DrugDetailsPage (routeMatch ident) (fetchDrugDetails rt ident st).1
      = .ok (detailsView ((JSVal.obj record).field "name") ((JSVal.obj record).field "rxcui")
          ((JSVal.obj record).field "synonym") (codes.map (fun code => ndcItem (.str code)))) := by
  rw [fetchDrugDetails_ok rt ident st concept codesResponse (.obj record) _ hget₁ hpath hget₂
    (ndcsUpdate_list codesResponse entries hlist)]
  exact DrugDetailsPage_loaded ident _ record entries _ (by simp [herr, JSVal.truthy]) rfl rfl
    (mapIdxFrom_renderNdc entries codes hcodes 0)

/-- Instance of C7 (amended): identifier `123`, Acetaminophen / APAP, one code entry. -/
theorem DrugDetailsPage_renders_details_and_codes_witness :
    evalPath codeRecordsResponse [.prop "nlmRxNorm", .prop "ndcGroup", .prop "ndcList"]
        = .ok (.arr [.obj [("ndc", .str "00000-000-00")]])
      ∧ DrugDetailsPage (routeMatch (.str "123"))
          (fetchDrugDetails codeRecordsRuntime (.str "123") DetailsState.initial).1
        = .ok (detailsView (.str "Acetaminophen") (.str "123") (.str "APAP")
            [.elem "li" (some (.str "00000-000-00")) [] [.expr (.str "00000-000-00")]]) :=
  ⟨rfl, DrugDetailsPage_renders_details_and_codes codeRecordsRuntime (.str "123")
    DetailsState.initial acetaminophenConcept codeRecordsResponse
    [("rxcui", .str "123"), ("name", .str "Acetaminophen"), ("synonym", .str "APAP")]
    [.obj [("ndc", .str "00000-000-00")]] ["00000-000-00"]
    rfl rfl rfl rfl (.cons rfl .nil) rfl⟩

/-- C8: for every concept-lookup response whose first item of the first subset
is a record and every code-lookup response that lacks `nlmRxNorm` or lacks
`nlmRxNorm.ndcGroup`, `fetchDrugDetails` run from the initial details state sets
only the details record, so the code list stays empty and the error stays empty,
and the screen renders the details with an empty code list. -/
theorem fetchDrugDetails_missing_code_group (rt : Runtime) (ident : JSVal)
    (concept codesResponse : JSVal) (record : List (String × JSVal))
    (hget₁ : rt.httpGet (detailsUrl ident) = .ok concept)
    (hpath : evalPath concept detailsPath = .ok (.obj record))
    (hget₂ : rt.httpGet (ndcsUrl ident) = .ok codesResponse)
    (hlack : absent codesResponse [.prop "nlmRxNorm"]
      ∨ absent codesResponse [.prop "nlmRxNorm", .prop "ndcGroup"]) :
    (fetchDrugDetails rt ident DetailsState.initial).1.ndcList = .arr []
      ∧ (fetchDrugDetails rt ident DetailsState.initial).1.error = .str ""
      ∧ (fetchDrugDetails rt ident DetailsState.initial).1.drugDetails = .obj record
      ∧ DrugDetailsPage (routeMatch ident) (fetchDrugDetails rt ident DetailsState.initial).1
          = .ok (detailsView ((JSVal.obj record).field "name")
              ((JSVal.obj record).field "rxcui") ((JSVal.obj record).field "synonym") []) := by
  rw [fetchDrugDetails_ok rt ident DetailsState.initial concept codesResponse (.obj record) id
    hget₁ hpath hget₂ (ndcsUpdate_absent codesResponse hlack)]
  exact ⟨rfl, rfl, rfl, DrugDetailsPage_loaded ident _ record [] [] rfl rfl rfl rfl⟩

/-- Instance of C8: the code-lookup response has `nlmRxNorm` but no `ndcGroup`. -/
theorem fetchDrugDetails_missing_code_group_witness :
    absent noCodeGroupResponse [.prop "nlmRxNorm", .prop "ndcGroup"]
      ∧ (fetchDrugDetails noCodeGroupRuntime (.str "123") DetailsState.initial).1.ndcList
          = .arr []
      ∧ (fetchDrugDetails noCodeGroupRuntime (.str "123") DetailsState.initial).1.error
          = .str ""
      ∧ DrugDetailsPage (routeMatch (.str "123"))
          (fetchDrugDetails noCodeGroupRuntime (.str "123") DetailsState.initial).1
        = .ok (detailsView (.str "Acetaminophen") (.str "123") (.str "APAP") []) :=
  have h := fetchDrugDetails_missing_code_group noCodeGroupRuntime (.str "123")
    acetaminophenConcept noCodeGroupResponse
    [("rxcui", .str "123"), ("name", .str "Acetaminophen"), ("synonym", .str "APAP")]
    rfl rfl rfl (Or.inr rfl)
  ⟨rfl, h.1, h.2.1, h.2.2.2⟩

theorem evalPath_error_of_absent_level (v : JSVal) (path : List Step) (k : Nat)
    (hk : k < path.length) (h : absent v (path.take k)) :
    evalPath v path = .error .typeError := by
  have hsplit : path = path.take k ++ path.drop k := (List.take_append_drop k path).symm
  rw [hsplit, evalPath_append, h]
  cases hd : path.drop k with
  | nil =>
    have := List.drop_eq_nil_iff.mp hd
    omega
  | cons s rest => exact evalPath_undefined_cons s rest

/-- C10 (as stated, refuted): when only the last level of the path is absent
(the first subset has an empty item list) the access does not fail: the details
record is set to `undefined`, the code lookup is issued, no error is set, and the
screen keeps showing the loading placeholder instead of the failure message. -/
theorem fetchDrugDetails_empty_items_no_failure :
    absent emptySubsetResponse detailsPath
      ∧ (fetchDrugDetails emptySubsetRuntime (.str "123") DetailsState.initial).2
          = ["https://rxnav.nlm.nih.gov/REST/rxcui/123.json",
             "https://rxnav.nlm.nih.gov/REST/rxcui/123/ndcs.json"]
      ∧ (fetchDrugDetails emptySubsetRuntime (.str "123") DetailsState.initial).1.drugDetails
          = .undefined
      ∧ (fetchDrugDetails emptySubsetRuntime (.str "123") DetailsState.initial).1.error
          = .str ""
      ∧ DrugDetailsPage (routeMatch (.str "123"))
          (fetchDrugDetails emptySubsetRuntime (.str "123") DetailsState.initial).1
        = .ok loadingView
      ∧ DrugDetailsPage (routeMatch (.str "123"))
          (fetchDrugDetails emptySubsetRuntime (.str "123") DetailsState.initial).1
        ≠ .ok (errorView (.str "Failed to fetch drug details")) := by
  refine ⟨rfl, rfl, rfl, rfl, rfl, ?_⟩
  have h : DrugDetailsPage (routeMatch (.str "123"))
      (fetchDrugDetails emptySubsetRuntime (.str "123") DetailsState.initial).1
        = .ok loadingView := rfl
  rw [h]
  simp [loadingView, errorView]

/-- C10 (amended): for every concept-lookup response in which the path
`nlmRxNorm.drugGroup.conceptGroup[0].conceptProperties[0]` is absent at a level
before its last one, `fetchDrugDetails` fails at that access: the only change to
the state is the error `Failed to fetch drug details` (the details record is not
set), the concept lookup is the only request issued, and the screen renders
exactly that message. -/
theorem fetchDrugDetails_absent_path_fails (rt : Runtime) (ident : JSVal) (st : DetailsState)
    (concept : JSVal) (k : Nat)
    (hget : rt.httpGet (detailsUrl ident) = .ok concept)
    (hk : k < detailsPath.length)
    (habs : absent concept (detailsPath.take k)) :
    fetchDrugDetails rt ident st
        = ({ st with error := .str "Failed to fetch drug details" }, [detailsUrl ident])
      ∧ DrugDetailsPage (routeMatch ident) (fetchDrugDetails rt ident st).1
          = .ok (errorView (.str "Failed to fetch drug details")) := by
  have hst : fetchDrugDetails rt ident st
      = ({ st with error := .str "Failed to fetch drug details" }, [detailsUrl ident]) := by
    simp [fetchDrugDetails, hget, Except.bind,
      evalPath_error_of_absent_level concept detailsPath k hk habs]
  rw [hst]
  exact ⟨rfl, DrugDetailsPage_error ident _ rfl⟩

/-- Instance of C10 (amended): the concept response has no subset list (level 3). -/
theorem fetchDrugDetails_absent_path_fails_witness :
    absent noSubsetListResponse (detailsPath.take 3)
      ∧ fetchDrugDetails noSubsetListRuntime (.str "123") DetailsState.initial
          = ({ DetailsState.initial with error := .str "Failed to fetch drug details" },
             ["https://rxnav.nlm.nih.gov/REST/rxcui/123.json"])
      ∧ DrugDetailsPage (routeMatch (.str "123"))
          (fetchDrugDetails noSubsetListRuntime (.str "123") DetailsState.initial).1
          = .ok (errorView (.str "Failed to fetch drug details")) :=
  have h := fetchDrugDetails_absent_path_fails noSubsetListRuntime (.str "123")
    DetailsState.initial noSubsetListResponse 3 rfl (by decide) rfl
  ⟨rfl, h.1, h.2⟩

end Xogene
